import Mathlib

/-!
Verification of the storage-layer query logic of the `loja` storefront.

The repository's persistence layer (`DatabaseStorage`) builds parameterized
SQL queries over a relational schema.  We embed the relevant tables as Lean
lists of rows and each storage method as a pure function on that state,
translated clause-for-clause from the query builders, and prove the
specified properties of those functions.

Numeric columns: `decimal` columns (`preco`, `avaliacao`, order totals) are
modelled as `Rat`, `integer` columns (`vendas`, `estoque`, quantities) as
`Int`.  Nullable integer columns are `Option Int`.  Row ids generated by
`gen_random_uuid()` are modelled as explicit `String` parameters.
-/

namespace Loja

/-- A row of the `products` table (the columns the verified queries read). -/
structure Product where
  id : String
  nome : String
  preco : Rat
  categoria : String
  avaliacao : Rat
  vendas : Int
  estoque : Int
  estoqueMinimo : Option Int
  isFeatured : Bool
  deriving Repr, DecidableEq

/-- The SQL ordering `ORDER BY avaliacao DESC, vendas DESC` used by
`getRelatedProducts`: `relatedOrd a b` holds when `a` may be listed before
`b` (higher rating first, ties broken by higher sales first). -/
def relatedOrd (a b : Product) : Prop :=
  b.avaliacao < a.avaliacao ∨ (a.avaliacao = b.avaliacao ∧ b.vendas ≤ a.vendas)

instance : DecidableRel relatedOrd := fun a b => by
  unfold relatedOrd
  exact inferInstance

instance : IsTotal Product relatedOrd := by
  constructor
  intro a b
  rcases lt_trichotomy b.avaliacao a.avaliacao with h | h | h
  · exact Or.inl (Or.inl h)
  · rcases le_total b.vendas a.vendas with hv | hv
    · exact Or.inl (Or.inr ⟨h.symm, hv⟩)
    · exact Or.inr (Or.inr ⟨h, hv⟩)
  · exact Or.inr (Or.inl h)

instance : IsTrans Product relatedOrd := by
  constructor
  intro a b c hab hbc
  rcases hab with h1 | ⟨h1e, h1v⟩
  · rcases hbc with h2 | ⟨h2e, h2v⟩
    · exact Or.inl (h2.trans h1)
    · exact Or.inl (h2e ▸ h1)
  · rcases hbc with h2 | ⟨h2e, h2v⟩
    · exact Or.inl (h1e ▸ h2)
    · exact Or.inr ⟨h1e.trans h2e, h2v.trans h1v⟩

/-- `DatabaseStorage.getRelatedProducts(productId, limit)`: load the current
product by id (returning `[]` when it does not exist), then select products
with a different id and the same `categoria`, ordered by `avaliacao`
descending then `vendas` descending, limited to `limit` rows. -/
def getRelatedProducts (db : List Product) (productId : String) (limit : Nat) :
    List Product :=
  match db.find? (fun p => p.id == productId) with
  | none => []
  | some cur =>
      (List.insertionSort relatedOrd
        (db.filter (fun p => !(p.id == productId) && (p.categoria == cur.categoria)))).take
        limit

/-- C1: for an existing product `p` and limit `n`, `getRelatedProducts`
returns only products in `p`'s category, never `p` itself, ordered by
rating descending then sales descending, and at most `n` of them. -/
theorem getRelatedProducts_spec (db : List Product) (p : Product) (n : Nat)
    (hp : db.find? (fun q => q.id == p.id) = some p) :
    (∀ q ∈ getRelatedProducts db p.id n, q.categoria = p.categoria ∧ q.id ≠ p.id) ∧
    (getRelatedProducts db p.id n).length ≤ n ∧
    (getRelatedProducts db p.id n).Pairwise
      (fun a b => b.avaliacao < a.avaliacao ∨
        (a.avaliacao = b.avaliacao ∧ b.vendas ≤ a.vendas)) := by
  unfold getRelatedProducts
  rw [hp]
  refine ⟨?_, ?_, ?_⟩
  · intro q hq
    have hq1 : q ∈ List.insertionSort relatedOrd
        (db.filter (fun r => !(r.id == p.id) && (r.categoria == p.categoria))) :=
      List.mem_of_mem_take hq
    have hq2 := (List.mem_insertionSort relatedOrd).mp hq1
    have hq3 := List.of_mem_filter hq2
    simp only [Bool.and_eq_true, Bool.not_eq_true', beq_eq_false_iff_ne, beq_iff_eq] at hq3
    exact ⟨hq3.2, hq3.1⟩
  · exact List.length_take_le n _
  · exact List.Pairwise.sublist (List.take_sublist n _)
      (List.sorted_insertionSort relatedOrd _)

/-- A two-product database used to instantiate the theorems. -/
def prodA : Product :=
  { id := "a", nome := "Produto A", preco := 10, categoria := "ferramentas",
    avaliacao := 4, vendas := 7, estoque := 3, estoqueMinimo := some 5,
    isFeatured := false }

/-- A second sample product, same category as `prodA`, higher rating. -/
def prodB : Product :=
  { id := "b", nome := "Produto B", preco := 20, categoria := "ferramentas",
    avaliacao := 5, vendas := 2, estoque := 9, estoqueMinimo := some 5,
    isFeatured := true }

/-- Witness for C1 at a concrete database. -/
theorem getRelatedProducts_spec_witness :
    (∀ q ∈ getRelatedProducts [prodA, prodB] prodA.id 6,
        q.categoria = prodA.categoria ∧ q.id ≠ prodA.id) ∧
    (getRelatedProducts [prodA, prodB] prodA.id 6).length ≤ 6 ∧
    (getRelatedProducts [prodA, prodB] prodA.id 6).Pairwise
      (fun a b => b.avaliacao < a.avaliacao ∨
        (a.avaliacao = b.avaliacao ∧ b.vendas ≤ a.vendas)) :=
  getRelatedProducts_spec [prodA, prodB] prodA 6 (by decide)

/-! ### Stock alerts (`DatabaseStorage.getStockAlerts`) -/

/-- The row shape produced by the `getStockAlerts` SELECT projection
(`productId`, `productName`, `currentStock`, `minimumStock`), with
`minimumStock` still the raw nullable column value. -/
structure StockAlertRow where
  productId : String
  productName : String
  currentStock : Int
  minimumStock : Option Int
  deriving Repr, DecidableEq

/-- The alert value returned to callers, after the `minimumStock || 5`
substitution (a non-nullable number). -/
structure StockAlert where
  productId : String
  productName : String
  currentStock : Int
  minimumStock : Int
  deriving Repr, DecidableEq

/-- SQL three-valued comparison `estoque <= estoque_minimo`: when the
nullable right-hand column is NULL the comparison is unknown, so the WHERE
clause does not select the row. -/
def sqlLeNullable (a : Int) (b : Option Int) : Bool :=
  match b with
  | none => false
  | some m => decide (a ≤ m)

/-- The sort key `estoque - estoque_minimo` of `ORDER BY ... ASC`.  Every
row reaching the ORDER BY passed the WHERE clause, so its `estoqueMinimo`
is non-null and the `getD 0` fallback is never exercised there. -/
def stockDeficit (p : Product) : Int :=
  p.estoque - p.estoqueMinimo.getD 0

/-- The ordering `ORDER BY (estoque - estoque_minimo) ASC`. -/
def deficitOrd (a b : Product) : Prop :=
  stockDeficit a ≤ stockDeficit b

instance : DecidableRel deficitOrd := fun a b => by
  unfold deficitOrd
  exact inferInstance

instance : IsTotal Product deficitOrd :=
  ⟨fun a b => le_total (stockDeficit a) (stockDeficit b)⟩

instance : IsTrans Product deficitOrd :=
  ⟨fun _ _ _ hab hbc => le_trans hab hbc⟩

/-- JavaScript `x || d` on a nullable number: both `null` and `0` are falsy
and are replaced by `d`. -/
def jsOrInt (x : Option Int) (d : Int) : Int :=
  match x with
  | none => d
  | some v => if v = 0 then d else v

/-- The query part of `DatabaseStorage.getStockAlerts`: WHERE
`estoque <= estoque_minimo`, ORDER BY `(estoque - estoque_minimo) ASC`,
LIMIT `limit`, projected to the SELECT columns. -/
def getStockAlertRows (db : List Product) (limit : Nat) : List StockAlertRow :=
  ((List.insertionSort deficitOrd
      (db.filter (fun p => sqlLeNullable p.estoque p.estoqueMinimo))).take limit).map
    (fun p =>
      { productId := p.id, productName := p.nome, currentStock := p.estoque,
        minimumStock := p.estoqueMinimo })

/-- `DatabaseStorage.getStockAlerts(limit)`: the query rows with
`minimumStock: alert.minimumStock || 5` applied to each. -/
def getStockAlerts (db : List Product) (limit : Nat) : List StockAlert :=
  (getStockAlertRows db limit).map
    (fun a =>
      { productId := a.productId, productName := a.productName,
        currentStock := a.currentStock,
        minimumStock := jsOrInt a.minimumStock 5 })

/-- A product whose `estoqueMinimo` column is NULL and whose stock is 0. -/
def prodNoMin : Product :=
  { id := "n", nome := "Sem minimo", preco := 1, categoria := "ferramentas",
    avaliacao := 5, vendas := 0, estoque := 0, estoqueMinimo := none,
    isFeatured := false }

/-- C2 counterexample: the claim says a NULL minimum is treated as the
default 5 for selection, so `prodNoMin` (stock 0 ≤ 5) would have to be
alerted; but the SQL WHERE clause never selects a row with a NULL
`estoque_minimo`, and `getStockAlerts` returns no alert at all for it. -/
theorem getStockAlerts_null_min_counterexample :
    prodNoMin.estoqueMinimo = none ∧ prodNoMin.estoque ≤ 5 ∧
    getStockAlerts [prodNoMin] 20 = [] := by
  decide

/-- C2 (amended): `getStockAlerts(limit)` returns exactly the products whose
stored minimum is non-null and whose stock is at most that minimum —
products with a NULL minimum are never selected; the default 5 applies only
to the reported `minimumStock` field (where a stored 0 is also replaced
by 5) — ordered by ascending (stock − minimum), with at most `limit`
entries. -/
theorem getStockAlerts_spec (db : List Product) (limit : Nat) :
    (∀ r ∈ getStockAlertRows db limit, ∃ p ∈ db, ∃ m : Int,
        p.estoqueMinimo = some m ∧ p.estoque ≤ m ∧
        r = { productId := p.id, productName := p.nome, currentStock := p.estoque,
              minimumStock := p.estoqueMinimo }) ∧
    ((db.filter (fun p => sqlLeNullable p.estoque p.estoqueMinimo)).length ≤ limit →
      ∀ p ∈ db, ∀ m : Int, p.estoqueMinimo = some m → p.estoque ≤ m →
        ({ productId := p.id, productName := p.nome, currentStock := p.estoque,
           minimumStock := p.estoqueMinimo } : StockAlertRow) ∈ getStockAlertRows db limit) ∧
    (getStockAlertRows db limit).length ≤ limit ∧
    ((List.insertionSort deficitOrd
        (db.filter (fun p => sqlLeNullable p.estoque p.estoqueMinimo))).take limit).Pairwise
      deficitOrd ∧
    getStockAlerts db limit =
      (getStockAlertRows db limit).map
        (fun a =>
          { productId := a.productId, productName := a.productName,
            currentStock := a.currentStock,
            minimumStock := jsOrInt a.minimumStock 5 }) := by
  refine ⟨?_, ?_, ?_, ?_, rfl⟩
  · intro r hr
    unfold getStockAlertRows at hr
    obtain ⟨p, hpmem, hproj⟩ := List.mem_map.mp hr
    have hp1 : p ∈ List.insertionSort deficitOrd
        (db.filter (fun q => sqlLeNullable q.estoque q.estoqueMinimo)) :=
      List.mem_of_mem_take hpmem
    have hp2 := (List.mem_insertionSort deficitOrd).mp hp1
    have hp3 := List.of_mem_filter hp2
    have hp4 := List.mem_of_mem_filter hp2
    unfold sqlLeNullable at hp3
    match hmin : p.estoqueMinimo with
    | none => rw [hmin] at hp3; exact absurd hp3 (by simp)
    | some m =>
        rw [hmin] at hp3
        exact ⟨p, hp4, m, hmin, of_decide_eq_true hp3, hproj.symm⟩
  · intro hlen p hp m hmin hle
    unfold getStockAlertRows
    have hfilt : p ∈ db.filter (fun q => sqlLeNullable q.estoque q.estoqueMinimo) := by
      refine List.mem_filter.mpr ⟨hp, ?_⟩
      unfold sqlLeNullable
      rw [hmin]
      exact decide_eq_true hle
    have hsort : p ∈ List.insertionSort deficitOrd
        (db.filter (fun q => sqlLeNullable q.estoque q.estoqueMinimo)) :=
      (List.mem_insertionSort deficitOrd).mpr hfilt
    have hlen2 : (List.insertionSort deficitOrd
        (db.filter (fun q => sqlLeNullable q.estoque q.estoqueMinimo))).length ≤ limit := by
      rw [(List.perm_insertionSort deficitOrd _).length_eq]
      exact hlen
    rw [List.take_of_length_le hlen2]
    exact List.mem_map.mpr ⟨p, hsort, rfl⟩
  · unfold getStockAlertRows
    rw [List.length_map]
    exact List.length_take_le limit _
  · exact List.Pairwise.sublist (List.take_sublist limit _)
      (List.sorted_insertionSort deficitOrd _)

/-- Witness for the amended C2: on a one-product database whose product has
minimum 5 and stock 3, the alert row for that product is returned. -/
theorem getStockAlerts_spec_witness :
    ({ productId := prodA.id, productName := prodA.nome,
       currentStock := prodA.estoque,
       minimumStock := prodA.estoqueMinimo } : StockAlertRow) ∈
      getStockAlertRows [prodA] 20 :=
  (getStockAlerts_spec [prodA] 20).2.1 (by decide) prodA (by decide) 5 (by decide)
    (by decide)

/-! ### The database state

The tables touched by the verified operations, each a list of rows. -/

/-- A row of the `users` table (identity columns only). -/
structure User where
  id : String
  email : String
  role : String
  deriving Repr, DecidableEq

/-- A row of the `product_stock` table: per-location quantity. -/
structure StockRow where
  id : String
  productId : String
  localizacao : String
  quantidade : Int
  deriving Repr, DecidableEq

/-- A row of the `cart_items` table. -/
structure CartItem where
  id : String
  userId : String
  productId : String
  quantidade : Int
  deriving Repr, DecidableEq

/-- A row of the `orders` table. -/
structure Order where
  id : String
  userId : String
  status : String
  total : Rat
  deriving Repr, DecidableEq

/-- A row of the `order_items` table. -/
structure OrderItem where
  id : String
  orderId : String
  productId : String
  quantidade : Int
  preco : Rat
  deriving Repr, DecidableEq

/-- A row of the `product_images` table. -/
structure ProductImage where
  id : String
  productId : String
  url : String
  altText : Option String
  ordem : Int
  isPrimary : Bool
  deriving Repr, DecidableEq

/-- The database: one list of rows per table. -/
structure Store where
  users : List User
  products : List Product
  productImages : List ProductImage
  productStock : List StockRow
  cartItems : List CartItem
  orders : List Order
  orderItems : List OrderItem
  deriving Repr, DecidableEq

/-! ### Generic list helpers shared by the state-update proofs -/

/-- A list of length at most one containing `a` is exactly `[a]`. -/
theorem eq_singleton_of_length_le_one {α : Type} {l : List α} {a : α}
    (h : l.length ≤ 1) (ha : a ∈ l) : l = [a] := by
  match l, ha with
  | [x], ha =>
      rw [List.mem_singleton.mp ha]
  | x :: y :: t, _ =>
      exact absurd h (by simp [Nat.succ_le])

/-- Filtering commutes with a map that does not change the filtered
predicate. -/
theorem filter_map_of_pred_invariant {α : Type} {p : α → Bool} {f : α → α}
    (hf : ∀ x, p (f x) = p x) (l : List α) :
    (l.map f).filter p = (l.filter p).map f := by
  rw [List.filter_map]
  congr 1
  exact List.filter_congr (fun x _ => hf x)

/-! ### Stock write reconciliation (`DatabaseStorage.updateProductStock`) -/

/-- `DatabaseStorage.updateProductStock(productId, quantidade, location)`:
look up the `product_stock` row with this product and location; update its
quantity in place when found, insert a new row (with generated id `newId`)
otherwise; in both cases store `Math.max(0, quantidade)`; then update the
legacy `estoque` column of the product row to the same clamped value. -/
def updateProductStock (st : Store) (newId : String) (productId : String)
    (quantidade : Int) (location : String) : Store :=
  let newRows :=
    match st.productStock.find?
        (fun r => r.productId == productId && r.localizacao == location) with
    | some existing =>
        st.productStock.map (fun r =>
          if r.id == existing.id then { r with quantidade := max 0 quantidade } else r)
    | none =>
        st.productStock ++
          [{ id := newId, productId := productId, localizacao := location,
             quantidade := max 0 quantidade }]
  { st with
    productStock := newRows,
    products := st.products.map (fun p =>
      if p.id == productId then { p with estoque := max 0 quantidade } else p) }

/-- C3: `updateProductStock` upserts the per-location stock row keyed by
(product, location) — after the call exactly one row carries that key and
its quantity is `max 0 q` — leaves every row with a different key
untouched, and mirrors `max 0 q` into the legacy `estoque` column of the
product row.  Hypotheses: row ids are unique and the state has at most one
row per (product, location) key. -/
theorem updateProductStock_spec (st : Store) (newId pid loc : String) (q : Int)
    (hids : (st.productStock.map StockRow.id).Nodup)
    (hkey : (st.productStock.filter
        (fun r => r.productId == pid && r.localizacao == loc)).length ≤ 1) :
    ((updateProductStock st newId pid q loc).productStock.filter
        (fun r => r.productId == pid && r.localizacao == loc)).map StockRow.quantidade
      = [max 0 q] ∧
    (updateProductStock st newId pid q loc).productStock.filter
        (fun r => !(r.productId == pid && r.localizacao == loc))
      = st.productStock.filter (fun r => !(r.productId == pid && r.localizacao == loc)) ∧
    (∀ p ∈ st.products, p.id = pid →
        ({ p with estoque := max 0 q } : Product) ∈
          (updateProductStock st newId pid q loc).products) ∧
    (∀ p ∈ st.products, p.id ≠ pid →
        p ∈ (updateProductStock st newId pid q loc).products) ∧
    (∀ p ∈ (updateProductStock st newId pid q loc).products, p.id = pid →
        p.estoque = max 0 q) := by
  have hprod :
      (updateProductStock st newId pid q loc).products =
        st.products.map (fun p =>
          if p.id == pid then { p with estoque := max 0 q } else p) := by
    unfold updateProductStock
    cases st.productStock.find?
        (fun r => r.productId == pid && r.localizacao == loc) <;> rfl
  refine ⟨?_, ?_, ?_, ?_, ?_⟩
  · -- exactly one row with the key, holding the clamped quantity
    unfold updateProductStock
    cases hfind : st.productStock.find?
        (fun r => r.productId == pid && r.localizacao == loc) with
    | none =>
        simp only
        rw [List.filter_append]
        have hnil : st.productStock.filter
            (fun r => r.productId == pid && r.localizacao == loc) = [] := by
          rw [List.filter_eq_nil_iff]
          exact List.find?_eq_none.mp hfind
        rw [hnil]
        simp
    | some existing =>
        simp only
        have hmem := List.mem_of_find?_eq_some hfind
        have hkeyEx := List.find?_some hfind
        have hsingle : st.productStock.filter
            (fun r => r.productId == pid && r.localizacao == loc) = [existing] :=
          eq_singleton_of_length_le_one hkey (List.mem_filter.mpr ⟨hmem, hkeyEx⟩)
        rw [filter_map_of_pred_invariant (fun x => by by_cases h : (x.id == existing.id) = true <;> simp [h]), hsingle]
        simp
  · -- rows with any other key are untouched
    unfold updateProductStock
    cases hfind : st.productStock.find?
        (fun r => r.productId == pid && r.localizacao == loc) with
    | none =>
        simp only
        rw [List.filter_append]
        have hnew : ((fun r => !(r.productId == pid && r.localizacao == loc))
            ({ id := newId, productId := pid, localizacao := loc,
               quantidade := max 0 q } : StockRow)) = false := by simp
        simp [hnew]
    | some existing =>
        simp only
        have hmem := List.mem_of_find?_eq_some hfind
        have hkeyEx := List.find?_some hfind
        rw [filter_map_of_pred_invariant (fun x => by by_cases h : (x.id == existing.id) = true <;> simp [h])]
        have hid : ∀ x ∈ st.productStock.filter
            (fun r => !(r.productId == pid && r.localizacao == loc)),
            (fun r => if r.id == existing.id
              then { r with quantidade := max 0 q } else r) x = x := by
          intro x hx
          have hx1 := List.mem_of_mem_filter hx
          have hx2 := List.of_mem_filter hx
          have hne : x.id ≠ existing.id := by
            intro heq
            have := List.inj_on_of_nodup_map hids hx1 hmem heq
            rw [this] at hx2
            rw [hkeyEx] at hx2
            simp at hx2
          simp [hne]
        rw [List.map_congr_left hid, List.map_id']
  · intro p hp hpid
    rw [hprod]
    exact List.mem_map.mpr ⟨p, hp, by simp [hpid]⟩
  · intro p hp hpid
    rw [hprod]
    exact List.mem_map.mpr ⟨p, hp, by simp [hpid]⟩
  · intro p hp hpid
    rw [hprod] at hp
    obtain ⟨x, hx, hxp⟩ := List.mem_map.mp hp
    by_cases hxid : x.id = pid
    · rw [← hxp]
      simp [hxid]
    · rw [← hxp] at hpid
      simp [hxid] at hpid

/-- A per-location stock row for `prodA`. -/
def stockRowA : StockRow :=
  { id := "s1", productId := "a", localizacao := "default", quantidade := 3 }

/-- A small concrete database used to instantiate the state theorems. -/
def store0 : Store :=
  { users := [{ id := "u1", email := "ana@example.com", role := "customer" }],
    products := [prodA, prodB],
    productImages := [],
    productStock := [stockRowA],
    cartItems := [],
    orders := [],
    orderItems := [] }

/-- Witness for C3: updating stock of product `a` at the default location
with a negative requested quantity on the concrete store. -/
theorem updateProductStock_spec_witness :
    ((updateProductStock store0 "s2" "a" (-4) "default").productStock.filter
        (fun r => r.productId == "a" && r.localizacao == "default")).map
        StockRow.quantidade = [max 0 (-4)] ∧
    (updateProductStock store0 "s2" "a" (-4) "default").productStock.filter
        (fun r => !(r.productId == "a" && r.localizacao == "default"))
      = store0.productStock.filter
          (fun r => !(r.productId == "a" && r.localizacao == "default")) ∧
    (∀ p ∈ store0.products, p.id = "a" →
        ({ p with estoque := max 0 (-4) } : Product) ∈
          (updateProductStock store0 "s2" "a" (-4) "default").products) ∧
    (∀ p ∈ store0.products, p.id ≠ "a" →
        p ∈ (updateProductStock store0 "s2" "a" (-4) "default").products) ∧
    (∀ p ∈ (updateProductStock store0 "s2" "a" (-4) "default").products, p.id = "a" →
        p.estoque = max 0 (-4)) :=
  updateProductStock_spec store0 "s2" "a" "default" (-4) (by decide) (by decide)

/-! ### Cart upsert (`DatabaseStorage.addToCart`) -/

/-- `insertCartItemSchema`'s rule for the requested quantity: the
`quantidade` column has a database default, so the field is optional in the
insert schema, and when present it must be at least 1
(`z.number().min(1)`). -/
def cartQuantityAccepted (quantidade : Option Int) : Bool :=
  match quantidade with
  | none => true
  | some q => decide (1 ≤ q)

/-- `DatabaseStorage.addToCart(cartItemData)`: find the cart row with this
user and product; when found, set its quantity to the existing quantity
plus `cartItemData.quantidade || 1` (JavaScript `||`, so a missing
requested quantity counts as 1); otherwise insert one new row (generated
id `newId`) whose quantity is the requested one, falling back to the
column default 1 when absent. -/
def addToCart (st : Store) (newId : String) (userId productId : String)
    (quantidade : Option Int) : Store :=
  match st.cartItems.find?
      (fun c => c.userId == userId && c.productId == productId) with
  | some existing =>
      { st with cartItems := st.cartItems.map (fun c =>
          if c.id == existing.id
          then { c with quantidade := existing.quantidade + jsOrInt quantidade 1 }
          else c) }
  | none =>
      { st with cartItems := st.cartItems ++
          [{ id := newId, userId := userId, productId := productId,
             quantidade := quantidade.getD 1 }] }

/-- On schema-accepted quantities the JavaScript `|| 1` fallback agrees
with plain defaulting (an accepted present quantity is at least 1, hence
not the falsy 0). -/
theorem jsOrInt_accepted_eq_getD {q : Option Int}
    (hq : cartQuantityAccepted q = true) : jsOrInt q 1 = q.getD 1 := by
  match q with
  | none => rfl
  | some k =>
      unfold cartQuantityAccepted at hq
      have hk : 1 ≤ k := of_decide_eq_true hq
      unfold jsOrInt
      simp only [Option.getD_some, ite_eq_right_iff]
      intro h0
      omega

/-- C4: `addToCart` for user `u` and product `p` updates the existing cart
row for (u, p) — after the call the unique row with that key holds quantity
`k + q.getD 1` and the table has the same number of rows — and inserts
exactly one new row when no row with that key exists; rows with other keys
are untouched, and the schema rejects any present quantity below 1.
Hypotheses: cart ids unique, at most one row per (user, product), and the
request passed the insert schema. -/
theorem addToCart_spec (st : Store) (newId userId productId : String)
    (quantidade : Option Int)
    (hids : (st.cartItems.map CartItem.id).Nodup)
    (hkey : (st.cartItems.filter
        (fun c => c.userId == userId && c.productId == productId)).length ≤ 1)
    (hq : cartQuantityAccepted quantidade = true) :
    (∀ existing, st.cartItems.find?
        (fun c => c.userId == userId && c.productId == productId) = some existing →
      ((addToCart st newId userId productId quantidade).cartItems.filter
          (fun c => c.userId == userId && c.productId == productId)).map
          CartItem.quantidade = [existing.quantidade + quantidade.getD 1] ∧
      (addToCart st newId userId productId quantidade).cartItems.length
        = st.cartItems.length) ∧
    (st.cartItems.find?
        (fun c => c.userId == userId && c.productId == productId) = none →
      (addToCart st newId userId productId quantidade).cartItems
        = st.cartItems ++
          [{ id := newId, userId := userId, productId := productId,
             quantidade := quantidade.getD 1 }]) ∧
    (addToCart st newId userId productId quantidade).cartItems.filter
        (fun c => !(c.userId == userId && c.productId == productId))
      = st.cartItems.filter
          (fun c => !(c.userId == userId && c.productId == productId)) ∧
    (∀ k : Int, k < 1 → cartQuantityAccepted (some k) = false) := by
  refine ⟨?_, ?_, ?_, ?_⟩
  · intro existing hfind
    unfold addToCart
    rw [hfind]
    simp only
    have hmem := List.mem_of_find?_eq_some hfind
    have hkeyEx := List.find?_some hfind
    have hsingle : st.cartItems.filter
        (fun c => c.userId == userId && c.productId == productId) = [existing] :=
      eq_singleton_of_length_le_one hkey (List.mem_filter.mpr ⟨hmem, hkeyEx⟩)
    constructor
    · rw [filter_map_of_pred_invariant
        (fun x => by by_cases h : (x.id == existing.id) = true <;> simp [h]), hsingle]
      simp [jsOrInt_accepted_eq_getD hq]
    · exact List.length_map _ _
  · intro hfind
    unfold addToCart
    rw [hfind]
  · unfold addToCart
    cases hfind : st.cartItems.find?
        (fun c => c.userId == userId && c.productId == productId) with
    | none =>
        simp only
        rw [List.filter_append]
        have hnew : ((fun c => !(c.userId == userId && c.productId == productId))
            ({ id := newId, userId := userId, productId := productId,
               quantidade := quantidade.getD 1 } : CartItem)) = false := by simp
        simp [hnew]
    | some existing =>
        simp only
        have hmem := List.mem_of_find?_eq_some hfind
        have hkeyEx := List.find?_some hfind
        rw [filter_map_of_pred_invariant
          (fun x => by by_cases h : (x.id == existing.id) = true <;> simp [h])]
        have hid : ∀ x ∈ st.cartItems.filter
            (fun c => !(c.userId == userId && c.productId == productId)),
            (fun c => if c.id == existing.id
              then { c with quantidade := existing.quantidade + jsOrInt quantidade 1 }
              else c) x = x := by
          intro x hx
          have hx1 := List.mem_of_mem_filter hx
          have hx2 := List.of_mem_filter hx
          have hne : x.id ≠ existing.id := by
            intro heq
            have := List.inj_on_of_nodup_map hids hx1 hmem heq
            rw [this] at hx2
            rw [hkeyEx] at hx2
            simp at hx2
          simp [hne]
        rw [List.map_congr_left hid, List.map_id']
  · intro k hk
    unfold cartQuantityAccepted
    simp
    omega

/-- Witness for C4: adding product `a` (quantity 2) to the empty cart of
user `u1` inserts exactly one row. -/
theorem addToCart_spec_witness :
    (addToCart store0 "c1" "u1" "a" (some 2)).cartItems
      = store0.cartItems ++
        [{ id := "c1", userId := "u1", productId := "a", quantidade := 2 }] :=
  (addToCart_spec store0 "c1" "u1" "a" (some 2) (by decide) (by decide)
    (by decide)).2.1 (by decide)

/-! ### Checkout (`POST /api/checkout`) and cart clearing -/

/-- `DatabaseStorage.getCartItems(userId)`: the user's cart rows inner-joined
with their product rows.  `products.id` is the primary key, so the join
partner of a row is the unique matching product, modelled by `find?`; cart
rows whose product does not exist produce no joined row. -/
def getCartItemsJoined (st : Store) (userId : String) :
    List (CartItem × Product) :=
  st.cartItems.filterMap (fun c =>
    if c.userId == userId
    then (st.products.find? (fun p => p.id == c.productId)).map (fun p => (c, p))
    else none)

/-- `DatabaseStorage.clearCart(userId)`: delete the cart rows of this user. -/
def clearCart (st : Store) (userId : String) : Store :=
  { st with cartItems := st.cartItems.filter (fun c => !(c.userId == userId)) }

/-- `DatabaseStorage.createOrder`: insert one order row. -/
def createOrder (st : Store) (o : Order) : Store :=
  { st with orders := st.orders ++ [o] }

/-- `DatabaseStorage.addOrderItem`: insert one order-item row. -/
def addOrderItem (st : Store) (oi : OrderItem) : Store :=
  { st with orderItems := st.orderItems ++ [oi] }

/-- The checkout total: `reduce((sum, item) => sum + price * quantity, 0)`
over the joined cart, the price read from the joined product row. -/
def checkoutTotal (cart : List (CartItem × Product)) : Rat :=
  cart.foldl (fun s cp => s + cp.2.preco * (cp.1.quantidade : Rat)) 0

/-- The order row built by the checkout handler. -/
def checkoutOrder (userId orderId : String)
    (cart : List (CartItem × Product)) : Order :=
  { id := orderId, userId := userId, status := "PROCESSANDO",
    total := checkoutTotal cart }

/-- The order-item rows inserted by the checkout loop, one per cart line,
in order: product id and price from the joined product row (the current
price), quantity from the cart row.  `itemIds i` is the id generated for
the i-th inserted row. -/
def checkoutItems (orderId : String) (itemIds : Nat → String) :
    Nat → List (CartItem × Product) → List OrderItem
  | _, [] => []
  | i, cp :: rest =>
      { id := itemIds i, orderId := orderId, productId := cp.2.id,
        quantidade := cp.1.quantidade, preco := cp.2.preco } ::
        checkoutItems orderId itemIds (i + 1) rest

/-- The sequence of database writes checkout performs after reading the
cart: `createOrder`, then one `addOrderItem` per cart line, then
`clearCart`.  None of them is wrapped in a transaction in the source. -/
def checkoutWrites (st : Store) (userId orderId : String)
    (itemIds : Nat → String) : List (Store → Store) :=
  let cart := getCartItemsJoined st userId
  (fun s => createOrder s (checkoutOrder userId orderId cart)) ::
    ((checkoutItems orderId itemIds 0 cart).map (fun oi s => addOrderItem s oi) ++
      [fun s => clearCart s userId])

/-- Run a prefix of the write sequence in order (the state after the first
writes when a later write fails). -/
def runWrites (st : Store) (ws : List (Store → Store)) : Store :=
  ws.foldl (fun s f => f s) st

/-- The body shapes `POST /api/checkout` can answer with. -/
inductive CheckoutResponse where
  | emptyCart
  | created (order : Order)
  deriving Repr, DecidableEq

/-- The HTTP status code and message of each checkout response. -/
def checkoutResponseStatus : CheckoutResponse → Nat × String
  | .emptyCart => (400, "Cart is empty")
  | .created _ => (201, "Order created successfully. Payment is being processed.")

/-- `POST /api/checkout` for an authenticated user: read the joined cart;
when it is empty answer 400 without writing; otherwise run all writes and
answer 201 with the created order. -/
def checkout (st : Store) (userId orderId : String) (itemIds : Nat → String) :
    Store × CheckoutResponse :=
  let cart := getCartItemsJoined st userId
  if cart.isEmpty then (st, CheckoutResponse.emptyCart)
  else
    (runWrites st (checkoutWrites st userId orderId itemIds),
     CheckoutResponse.created (checkoutOrder userId orderId cart))

/-- Folding an add-accumulate over a list is the sum of the mapped list. -/
theorem foldl_add_eq_sum {α : Type} (f : α → Rat) (l : List α) :
    ∀ a : Rat, l.foldl (fun s x => s + f x) a = a + (l.map f).sum := by
  induction l with
  | nil => intro a; simp
  | cons x t ih => intro a; simp [ih, add_assoc]

/-- Running the `addOrderItem` block appends exactly the given rows to the
order-items table and touches nothing else. -/
theorem runWrites_addOrderItems (ois : List OrderItem) :
    ∀ st : Store, runWrites st (ois.map (fun oi s => addOrderItem s oi)) =
      { st with orderItems := st.orderItems ++ ois } := by
  induction ois with
  | nil => intro st; simp [runWrites]
  | cons oi t ih =>
      intro st
      have h1 : runWrites st ((oi :: t).map (fun oi s => addOrderItem s oi))
          = runWrites (addOrderItem st oi) (t.map (fun oi s => addOrderItem s oi)) := rfl
      rw [h1, ih]
      simp [addOrderItem]

/-- The items emitted by the checkout loop: product id and price come from
the joined product row, quantity from the cart row, one item per line. -/
theorem checkoutItems_shape (orderId : String) (itemIds : Nat → String) :
    ∀ (i : Nat) (cart : List (CartItem × Product)),
      (checkoutItems orderId itemIds i cart).map
          (fun oi => (oi.productId, oi.quantidade, oi.preco))
        = cart.map (fun cp => (cp.2.id, cp.1.quantidade, cp.2.preco)) ∧
      (checkoutItems orderId itemIds i cart).length = cart.length := by
  intro i cart
  induction cart generalizing i with
  | nil => exact ⟨rfl, rfl⟩
  | cons cp rest ih =>
      obtain ⟨h1, h2⟩ := ih (i + 1)
      exact ⟨by simp [checkoutItems, h1], by simp [checkoutItems, h2]⟩

/-- C5: for a user with a non-empty cart, checkout answers 201 with exactly
one new order whose total is the sum of current price × cart quantity over
the cart lines; it appends one order item per cart line carrying the
product's current price and the line's quantity; afterwards the user's
cart is empty. -/
theorem checkout_spec (st : Store) (userId orderId : String)
    (itemIds : Nat → String)
    (hne : getCartItemsJoined st userId ≠ []) :
    (checkout st userId orderId itemIds).2
      = CheckoutResponse.created
          (checkoutOrder userId orderId (getCartItemsJoined st userId)) ∧
    (checkoutOrder userId orderId (getCartItemsJoined st userId)).total
      = ((getCartItemsJoined st userId).map
          (fun cp => cp.2.preco * (cp.1.quantidade : Rat))).sum ∧
    (checkout st userId orderId itemIds).1.orders
      = st.orders ++ [checkoutOrder userId orderId (getCartItemsJoined st userId)] ∧
    (checkout st userId orderId itemIds).1.orderItems
      = st.orderItems ++
          checkoutItems orderId itemIds 0 (getCartItemsJoined st userId) ∧
    (checkoutItems orderId itemIds 0 (getCartItemsJoined st userId)).map
        (fun oi => (oi.productId, oi.quantidade, oi.preco))
      = (getCartItemsJoined st userId).map
          (fun cp => (cp.2.id, cp.1.quantidade, cp.2.preco)) ∧
    (checkoutItems orderId itemIds 0 (getCartItemsJoined st userId)).length
      = (getCartItemsJoined st userId).length ∧
    (checkout st userId orderId itemIds).1.cartItems.filter
        (fun c => c.userId == userId) = [] := by
  have hrun : (checkout st userId orderId itemIds).1
      = clearCart
          { st with
            orders := st.orders ++
              [checkoutOrder userId orderId (getCartItemsJoined st userId)],
            orderItems := st.orderItems ++
              checkoutItems orderId itemIds 0 (getCartItemsJoined st userId) }
          userId := by
    unfold checkout
    rw [if_neg (by simpa [List.isEmpty_iff] using hne)]
    unfold checkoutWrites runWrites
    rw [List.foldl_cons, List.foldl_append]
    have := runWrites_addOrderItems
      (checkoutItems orderId itemIds 0 (getCartItemsJoined st userId))
      (createOrder st (checkoutOrder userId orderId (getCartItemsJoined st userId)))
    unfold runWrites at this
    rw [this]
    rfl
  refine ⟨?_, ?_, ?_, ?_, (checkoutItems_shape orderId itemIds 0 _).1,
    (checkoutItems_shape orderId itemIds 0 _).2, ?_⟩
  · unfold checkout
    rw [if_neg (by simpa [List.isEmpty_iff] using hne)]
  · unfold checkoutOrder checkoutTotal
    rw [foldl_add_eq_sum]
    simp
  · rw [hrun]; rfl
  · rw [hrun]; rfl
  · rw [hrun]
    unfold clearCart
    simp only
    rw [List.filter_filter]
    apply List.filter_eq_nil_iff.mpr
    intro c _
    by_cases h : (c.userId == userId) = true <;> simp [h]

/-- A cart row for user `u1` and product `a` in the concrete store. -/
def cartRow1 : CartItem :=
  { id := "c1", userId := "u1", productId := "a", quantidade := 2 }

/-- The concrete store with one cart line for user `u1`. -/
def store1 : Store :=
  { store0 with cartItems := [cartRow1] }

/-- Witness for C5 on the concrete store: user `u1` checks out one line of
two units of product `a`. -/
theorem checkout_spec_witness :
    (checkout store1 "u1" "o1" (fun i => "oi" ++ toString i)).2
      = CheckoutResponse.created
          (checkoutOrder "u1" "o1" (getCartItemsJoined store1 "u1")) ∧
    (checkoutOrder "u1" "o1" (getCartItemsJoined store1 "u1")).total
      = ((getCartItemsJoined store1 "u1").map
          (fun cp => cp.2.preco * (cp.1.quantidade : Rat))).sum ∧
    (checkout store1 "u1" "o1" (fun i => "oi" ++ toString i)).1.orders
      = store1.orders ++ [checkoutOrder "u1" "o1" (getCartItemsJoined store1 "u1")] ∧
    (checkout store1 "u1" "o1" (fun i => "oi" ++ toString i)).1.orderItems
      = store1.orderItems ++
          checkoutItems "o1" (fun i => "oi" ++ toString i) 0
            (getCartItemsJoined store1 "u1") ∧
    (checkoutItems "o1" (fun i => "oi" ++ toString i) 0
        (getCartItemsJoined store1 "u1")).map
        (fun oi => (oi.productId, oi.quantidade, oi.preco))
      = (getCartItemsJoined store1 "u1").map
          (fun cp => (cp.2.id, cp.1.quantidade, cp.2.preco)) ∧
    (checkoutItems "o1" (fun i => "oi" ++ toString i) 0
        (getCartItemsJoined store1 "u1")).length
      = (getCartItemsJoined store1 "u1").length ∧
    (checkout store1 "u1" "o1" (fun i => "oi" ++ toString i)).1.cartItems.filter
        (fun c => c.userId == "u1") = [] :=
  checkout_spec store1 "u1" "o1" (fun i => "oi" ++ toString i) (by decide)

/-- C6: checkout is not atomic.  If execution stops after `k` writes, with
`createOrder` (write 1) done but `clearCart` (the last write) not reached —
that is, an `addOrderItem` or `clearCart` call fails — then the created
order row is already in the orders table and the user's cart rows are all
still present; no write on this path deletes the order or restores
anything. -/
theorem checkout_partial_failure (st : Store) (userId orderId : String)
    (itemIds : Nat → String) (k : Nat) (hk1 : 1 ≤ k)
    (hk2 : k ≤ 1 + (checkoutItems orderId itemIds 0
        (getCartItemsJoined st userId)).length) :
    (runWrites st ((checkoutWrites st userId orderId itemIds).take k)).cartItems
        = st.cartItems ∧
    checkoutOrder userId orderId (getCartItemsJoined st userId)
      ∈ (runWrites st ((checkoutWrites st userId orderId itemIds).take k)).orders := by
  obtain ⟨k', rfl⟩ : ∃ k', k = k' + 1 := ⟨k - 1, by omega⟩
  have hk' : k' ≤ ((checkoutItems orderId itemIds 0
      (getCartItemsJoined st userId)).map (fun oi s => addOrderItem s oi)).length := by
    rw [List.length_map]
    omega
  have htake : (checkoutWrites st userId orderId itemIds).take (k' + 1)
      = (fun s => createOrder s
            (checkoutOrder userId orderId (getCartItemsJoined st userId))) ::
          (((checkoutItems orderId itemIds 0 (getCartItemsJoined st userId)).map
              (fun oi s => addOrderItem s oi)).take k') := by
    unfold checkoutWrites
    rw [List.take_succ_cons]
    congr 1
    exact List.take_eq_left_iff.mpr (Or.inr hk')
  rw [htake]
  have h1 : runWrites st
      ((fun s => createOrder s
          (checkoutOrder userId orderId (getCartItemsJoined st userId))) ::
        (((checkoutItems orderId itemIds 0 (getCartItemsJoined st userId)).map
            (fun oi s => addOrderItem s oi)).take k'))
      = runWrites
          (createOrder st
            (checkoutOrder userId orderId (getCartItemsJoined st userId)))
          (((checkoutItems orderId itemIds 0 (getCartItemsJoined st userId)).map
              (fun oi s => addOrderItem s oi)).take k') := rfl
  rw [h1, ← List.map_take, runWrites_addOrderItems]
  exact ⟨rfl, by simp [createOrder]⟩

/-- Witness for C6: on the concrete store, stopping checkout right after
`createOrder` leaves the order created and the cart untouched. -/
theorem checkout_partial_failure_witness :
    (runWrites store1
        ((checkoutWrites store1 "u1" "o1" (fun i => "oi" ++ toString i)).take 1)).cartItems
      = store1.cartItems ∧
    checkoutOrder "u1" "o1" (getCartItemsJoined store1 "u1")
      ∈ (runWrites store1
          ((checkoutWrites store1 "u1" "o1" (fun i => "oi" ++ toString i)).take 1)).orders :=
  checkout_partial_failure store1 "u1" "o1" (fun i => "oi" ++ toString i) 1
    (by decide) (by decide)

/-- C9: for an authenticated user whose cart is empty, checkout answers 400
with message "Cart is empty" and returns the database unchanged: no order
row, no order-item row, and the cart still as it was. -/
theorem checkout_empty_cart_spec (st : Store) (userId orderId : String)
    (itemIds : Nat → String) (h : getCartItemsJoined st userId = []) :
    checkout st userId orderId itemIds = (st, CheckoutResponse.emptyCart) ∧
    checkoutResponseStatus (checkout st userId orderId itemIds).2
      = (400, "Cart is empty") := by
  have h1 : checkout st userId orderId itemIds = (st, CheckoutResponse.emptyCart) := by
    unfold checkout
    rw [h]
    rfl
  exact ⟨h1, by rw [h1]; rfl⟩

/-- Witness for C9: user `u1` of the concrete store without cart rows. -/
theorem checkout_empty_cart_spec_witness :
    checkout store0 "u1" "o1" (fun i => "oi" ++ toString i)
      = (store0, CheckoutResponse.emptyCart) ∧
    checkoutResponseStatus
        (checkout store0 "u1" "o1" (fun i => "oi" ++ toString i)).2
      = (400, "Cart is empty") :=
  checkout_empty_cart_spec store0 "u1" "o1" (fun i => "oi" ++ toString i) (by decide)

/-- C10: `clearCart u` removes exactly user `u`'s cart rows: any other
user's rows are unchanged, the remaining cart is precisely the rows of
other users, and every other table of the database is untouched. -/
theorem clearCart_frame (st : Store) (u v : String) (hv : v ≠ u) :
    (clearCart st u).cartItems.filter (fun c => c.userId == v)
      = st.cartItems.filter (fun c => c.userId == v) ∧
    (clearCart st u).cartItems
      = st.cartItems.filter (fun c => !(c.userId == u)) ∧
    (clearCart st u).users = st.users ∧
    (clearCart st u).products = st.products ∧
    (clearCart st u).productImages = st.productImages ∧
    (clearCart st u).productStock = st.productStock ∧
    (clearCart st u).orders = st.orders ∧
    (clearCart st u).orderItems = st.orderItems := by
  refine ⟨?_, rfl, rfl, rfl, rfl, rfl, rfl, rfl⟩
  unfold clearCart
  simp only
  rw [List.filter_filter]
  apply List.filter_congr
  intro c _
  by_cases h : (c.userId == v) = true
  · have hcv : c.userId = v := by simpa using h
    have hcu : (c.userId == u) = false := by
      simp [hcv]
      exact hv
    simp [h, hcu]
  · simp [h]

/-- Witness for C10: clearing user `u1`'s cart in the concrete store leaves
user `u2`'s (absent) rows and all other tables unchanged. -/
theorem clearCart_frame_witness :
    (clearCart store1 "u1").cartItems.filter (fun c => c.userId == "u2")
      = store1.cartItems.filter (fun c => c.userId == "u2") ∧
    (clearCart store1 "u1").cartItems
      = store1.cartItems.filter (fun c => !(c.userId == "u1")) ∧
    (clearCart store1 "u1").users = store1.users ∧
    (clearCart store1 "u1").products = store1.products ∧
    (clearCart store1 "u1").productImages = store1.productImages ∧
    (clearCart store1 "u1").productStock = store1.productStock ∧
    (clearCart store1 "u1").orders = store1.orders ∧
    (clearCart store1 "u1").orderItems = store1.orderItems :=
  clearCart_frame store1 "u1" "u2" (by decide)

/-! ### Product images and the one-primary-per-product invariant -/

/-- The update payload accepted by
`insertProductImageSchema.partial().safeParse(req.body)`: any subset of
the image columns, `productId` and `isPrimary` included. -/
structure ImageUpdate where
  productId : Option String
  url : Option String
  altText : Option (Option String)
  ordem : Option Int
  isPrimary : Option Bool
  deriving Repr, DecidableEq

/-- Drizzle `.set(updateData)` with a partial payload: present fields
overwrite, absent fields keep the stored value. -/
def applyImageUpdate (u : ImageUpdate) (img : ProductImage) : ProductImage :=
  { img with
    productId := u.productId.getD img.productId,
    url := u.url.getD img.url,
    altText := u.altText.getD img.altText,
    ordem := u.ordem.getD img.ordem,
    isPrimary := u.isPrimary.getD img.isPrimary }

/-- `DatabaseStorage.addProductImage`: insert the validated image row as
given (the schema does not strip or constrain `isPrimary`). -/
def addProductImage (st : Store) (img : ProductImage) : Store :=
  { st with productImages := st.productImages ++ [img] }

/-- `DatabaseStorage.updateProductImage(id, updateData)`. -/
def updateProductImage (st : Store) (id : String) (u : ImageUpdate) : Store :=
  { st with productImages := st.productImages.map (fun i =>
      if i.id == id then applyImageUpdate u i else i) }

/-- `DatabaseStorage.deleteProductImage(id)`. -/
def deleteProductImage (st : Store) (id : String) : Store :=
  { st with productImages := st.productImages.filter (fun i => !(i.id == id)) }

/-- `DatabaseStorage.setPrimaryImage(productId, imageId)`: first set every
image of the product non-primary, then set the image with the given id
primary. -/
def setPrimaryRows (productId imageId : String) (imgs : List ProductImage) :
    List ProductImage :=
  List.map (fun i => if i.id == imageId then { i with isPrimary := true } else i)
    (List.map
      (fun i => if i.productId == productId then { i with isPrimary := false } else i)
      imgs)

/-- The state change of `setPrimaryImage`. -/
def setPrimaryImage (st : Store) (productId imageId : String) : Store :=
  { st with productImages := setPrimaryRows productId imageId st.productImages }

/-- The invariant of C8: product `p` has at most one image flagged
primary. -/
def atMostOnePrimary (imgs : List ProductImage) (p : String) : Prop :=
  (imgs.filter (fun i => i.productId == p && i.isPrimary)).length ≤ 1

/-- A primary image of product `a`. -/
def imgA : ProductImage :=
  { id := "i1", productId := "a", url := "https://cdn.example.com/1.png",
    altText := none, ordem := 0, isPrimary := true }

/-- A second image of product `a`, also flagged primary. -/
def imgB : ProductImage :=
  { id := "i2", productId := "a", url := "https://cdn.example.com/2.png",
    altText := none, ordem := 1, isPrimary := true }

/-- The concrete store with one (primary) image of product `a`. -/
def storeImg : Store :=
  { store0 with productImages := [imgA] }

/-- C8 counterexample: `addProductImage` inserts the payload's `isPrimary`
flag as-is, so adding a second image of product `a` flagged primary to a
state satisfying the invariant produces two primary images — the
operations do not all preserve the property. -/
theorem addProductImage_primary_counterexample :
    atMostOnePrimary storeImg.productImages "a" ∧
    ¬ atMostOnePrimary (addProductImage storeImg imgB).productImages "a" := by
  unfold atMostOnePrimary
  constructor
  · decide
  · decide

/-- Filtering with a pointwise (on the list) stronger predicate yields at
most as many elements. -/
theorem length_filter_le_of_imp {α : Type} {p q : α → Bool} (l : List α)
    (h : ∀ a ∈ l, p a = true → q a = true) :
    (l.filter p).length ≤ (l.filter q).length := by
  induction l with
  | nil => simp
  | cons x t ih =>
      have ht : ∀ a ∈ t, p a = true → q a = true :=
        fun a ha => h a (List.mem_cons_of_mem x ha)
      by_cases hp : p x = true
      · rw [List.filter_cons_of_pos hp, List.filter_cons_of_pos (h x (List.mem_cons_self x t) hp)]
        exact Nat.succ_le_succ (ih ht)
      · rw [List.filter_cons_of_neg (by simpa using hp)]
        by_cases hq : q x = true
        · rw [List.filter_cons_of_pos hq]
          exact Nat.le_succ_of_le (ih ht)
        · rw [List.filter_cons_of_neg (by simpa using hq)]
          exact ih ht

/-- C8 (amended): with unique image ids, starting from a state where a
product has at most one primary image: `deleteProductImage` always
preserves the property; `addProductImage` preserves it when the inserted
row is not flagged primary; `updateProductImage` preserves it when the
payload neither sets `isPrimary` to true nor reassigns the image to
another product; and `setPrimaryImage(pid, imgId)` applied to an image of
product `pid` preserves it for every product and leaves that image the
only primary image of `pid`.  (`addProductImage` with a primary-flagged
row and `updateProductImage` setting `isPrimary` can instead create a
second primary image.) -/
theorem productImages_primary_invariant (st : Store) (p : String) :
    (∀ id, atMostOnePrimary st.productImages p →
      atMostOnePrimary (deleteProductImage st id).productImages p) ∧
    (∀ img : ProductImage, img.isPrimary = false →
      atMostOnePrimary st.productImages p →
      atMostOnePrimary (addProductImage st img).productImages p) ∧
    (∀ id u, u.isPrimary ≠ some true → u.productId = none →
      atMostOnePrimary st.productImages p →
      atMostOnePrimary (updateProductImage st id u).productImages p) ∧
    (∀ pid imgId img, (st.productImages.map ProductImage.id).Nodup →
      img ∈ st.productImages → img.id = imgId → img.productId = pid →
      atMostOnePrimary st.productImages p →
      atMostOnePrimary (setPrimaryImage st pid imgId).productImages p) ∧
    (∀ pid imgId img, (st.productImages.map ProductImage.id).Nodup →
      img ∈ st.productImages → img.id = imgId → img.productId = pid →
      (setPrimaryImage st pid imgId).productImages.filter
          (fun i => i.productId == pid && i.isPrimary)
        = [{ img with isPrimary := true }]) := by
  have hsingleton : ∀ pid imgId img, (st.productImages.map ProductImage.id).Nodup →
      img ∈ st.productImages → img.id = imgId → img.productId = pid →
      (setPrimaryImage st pid imgId).productImages.filter
          (fun i => i.productId == pid && i.isPrimary)
        = [{ img with isPrimary := true }] := by
    intro pid imgId img hids hmem hid hpid
    unfold setPrimaryImage setPrimaryRows
    simp only
    rw [List.map_map, List.filter_map]
    have hpt : st.productImages.filter
        ((fun i => i.productId == pid && i.isPrimary) ∘
          ((fun i => if i.id == imgId then { i with isPrimary := true } else i) ∘
            (fun i => if i.productId == pid then { i with isPrimary := false } else i)))
        = st.productImages.filter (fun i => i == img) := by
      apply List.filter_congr
      intro i hi
      simp only [Function.comp]
      by_cases hieq : i = img
      · subst hieq
        simp [hpid, hid]
      · have hine : i.id ≠ imgId := by
          intro h
          exact hieq (List.inj_on_of_nodup_map hids hi hmem (h.trans hid.symm))
        have hbeq : (i == img) = false := beq_eq_false_iff_ne.mpr hieq
        rw [hbeq]
        by_cases hip : (i.productId == pid) = true
        · simp [hip, hine]
        · simp [hip, hine]
    rw [hpt]
    have hnodup : st.productImages.Nodup := List.Nodup.of_map ProductImage.id hids
    have hcount : st.productImages.count img = 1 :=
      List.count_eq_one_of_mem hnodup hmem
    rw [show (fun i => i == img) = (· == img) from rfl, List.filter_beq, hcount]
    simp [hpid, hid]
  refine ⟨?_, ?_, ?_, ?_, hsingleton⟩
  · intro id hinv
    unfold deleteProductImage atMostOnePrimary
    unfold atMostOnePrimary at hinv
    simp only
    calc (List.filter (fun i => i.productId == p && i.isPrimary)
            (List.filter (fun i => !(i.id == id)) st.productImages)).length
        ≤ (st.productImages.filter (fun i => i.productId == p && i.isPrimary)).length := by
          rw [List.filter_filter]
          exact length_filter_le_of_imp _ (fun a _ h => by
            simp only [Bool.and_eq_true] at h ⊢
            exact ⟨h.1.1, h.1.2⟩)
      _ ≤ 1 := hinv
  · intro img hprim hinv
    unfold addProductImage atMostOnePrimary
    unfold atMostOnePrimary at hinv
    simp only
    rw [List.filter_append]
    have : List.filter (fun i => i.productId == p && i.isPrimary) [img] = [] := by
      simp [hprim]
    rw [this, List.append_nil]
    exact hinv
  · intro id u hupd hpid hinv
    unfold updateProductImage atMostOnePrimary
    unfold atMostOnePrimary at hinv
    simp only
    rw [List.filter_map, List.length_map]
    refine le_trans (length_filter_le_of_imp _ ?_) hinv
    intro i _ hkey
    simp only [Function.comp] at hkey
    by_cases hiid : (i.id == id) = true
    · rw [if_pos hiid] at hkey
      unfold applyImageUpdate at hkey
      simp only [Bool.and_eq_true] at hkey ⊢
      rw [hpid] at hkey
      refine ⟨hkey.1, ?_⟩
      match hu : u.isPrimary with
      | none => rw [hu] at hkey; exact hkey.2
      | some b =>
          match b with
          | true => exact absurd hu hupd
          | false => rw [hu] at hkey; exact absurd hkey.2 (by simp)
    · rw [if_neg (by simpa using hiid)] at hkey
      exact hkey
  · intro pid imgId img hids hmem hid hpid hinv
    unfold atMostOnePrimary
    by_cases hpp : p = pid
    · subst hpp
      rw [hsingleton p imgId img hids hmem hid hpid]
      simp
    · unfold setPrimaryImage setPrimaryRows
      simp only
      rw [List.map_map, List.filter_map, List.length_map]
      unfold atMostOnePrimary at hinv
      have hpe : (pid == p) = false := by
        simp only [beq_eq_false_iff_ne]
        exact fun h => hpp h.symm
      have hcongr : st.productImages.filter
          ((fun i => i.productId == p && i.isPrimary) ∘
            ((fun i => if i.id == imgId then { i with isPrimary := true } else i) ∘
              (fun i => if i.productId == pid then { i with isPrimary := false } else i)))
          = st.productImages.filter (fun i => i.productId == p && i.isPrimary) := by
        apply List.filter_congr
        intro i hi
        simp only [Function.comp]
        by_cases hieq : i = img
        · subst hieq
          simp [hpid, hid, hpe]
        · have hine : i.id ≠ imgId := by
            intro h
            exact hieq (List.inj_on_of_nodup_map hids hi hmem (h.trans hid.symm))
          by_cases hip : (i.productId == pid) = true
          · have hipp : i.productId = pid := by simpa using hip
            simp [hip, hine, hipp, hpe]
          · simp [hip, hine]
      rw [hcongr]
      exact hinv

/-- Witness for the amended C8: setting image `i1` primary for product `a`
in the concrete store leaves it the only primary image of `a`. -/
theorem productImages_primary_invariant_witness :
    (setPrimaryImage storeImg "a" "i1").productImages.filter
        (fun i => i.productId == "a" && i.isPrimary)
      = [{ imgA with isPrimary := true }] :=
  (productImages_primary_invariant storeImg "a").2.2.2.2 "a" "i1" imgA
    (by decide) (by decide) (by decide) (by decide)

/-! ### Limit query validation (`limitQuerySchema`) and the
recommendation routes -/

/-- The ordering `ORDER BY vendas DESC, avaliacao DESC` used by the
bestseller and featured queries. -/
def salesOrd (a b : Product) : Prop :=
  b.vendas < a.vendas ∨ (a.vendas = b.vendas ∧ b.avaliacao ≤ a.avaliacao)

instance : DecidableRel salesOrd := fun a b => by
  unfold salesOrd
  exact inferInstance

/-- `DatabaseStorage.getBestsellingProducts(limit)`. -/
def getBestsellingProducts (db : List Product) (limit : Nat) : List Product :=
  (List.insertionSort salesOrd db).take limit

/-- `DatabaseStorage.getFeaturedProducts(limit)`: featured products only. -/
def getFeaturedProducts (db : List Product) (limit : Nat) : List Product :=
  (List.insertionSort salesOrd (db.filter (fun p => p.isFeatured))).take limit

/-- The raw `limit` query value as express delivers it: absent, one scalar,
or an array of scalars.  A scalar is represented by the result of
JavaScript number coercion on it: `some r` when `Number(s)` is the (finite)
number `r`, `none` when it is NaN. -/
inductive LimitQuery where
  | absent
  | single (v : Option Rat)
  | multiple (vs : List (Option Rat))
  deriving Repr, DecidableEq

/-- The `z.preprocess` step of `limitQuerySchema`: an array is replaced by
its first element (`undefined` when empty), and the result is `none` when
the effective value is `undefined`, which makes `.default(6)` fire. -/
def preprocessLimit : LimitQuery → Option (Option Rat)
  | .absent => none
  | .single v => some v
  | .multiple vs => vs.head?

/-- The issues collected by `z.coerce.number().int().min(1).max(24)` on a
coerced value, in check order, empty exactly when the value passes. -/
def limitIssues : Option Rat → List String
  | none => ["Expected number, received nan"]
  | some r =>
      (if r.den = 1 then [] else ["Expected integer, received float"]) ++
        ((if 1 ≤ r then [] else ["Number must be greater than or equal to 1"]) ++
          (if r ≤ 24 then [] else ["Number must be less than or equal to 24"]))

/-- `limitQuerySchema.safeParse` on the `limit` query value: an absent
effective value takes the default 6; otherwise the coerced number must
pass every check and the integer value is returned. -/
def parseLimit (q : LimitQuery) : Except (List String) Int :=
  match preprocessLimit q with
  | none => Except.ok 6
  | some none => Except.error (limitIssues none)
  | some (some r) =>
      if limitIssues (some r) = [] then Except.ok r.num
      else Except.error (limitIssues (some r))

/-- The response of a product-listing route. -/
inductive RouteResponse (α : Type) where
  | badRequest (message : String) (errors : List String)
  | notFound (message : String)
  | ok (body : α)
  deriving Repr, DecidableEq

/-- The HTTP status code of each response shape. -/
def routeStatus {α : Type} : RouteResponse α → Nat
  | .badRequest _ _ => 400
  | .notFound _ => 404
  | .ok _ => 200

/-- `GET /api/products/bestsellers`: validate the limit, then list.  The
parsed limit is an integer at least 1, used as the row cap. -/
def bestsellersRoute (db : List Product) (q : LimitQuery) :
    RouteResponse (List Product) :=
  match parseLimit q with
  | Except.error errs => RouteResponse.badRequest "Invalid query parameters" errs
  | Except.ok limit => RouteResponse.ok (getBestsellingProducts db limit.toNat)

/-- `GET /api/products/featured`. -/
def featuredRoute (db : List Product) (q : LimitQuery) :
    RouteResponse (List Product) :=
  match parseLimit q with
  | Except.error errs => RouteResponse.badRequest "Invalid query parameters" errs
  | Except.ok limit => RouteResponse.ok (getFeaturedProducts db limit.toNat)

/-- `GET /api/products/:id/related`: validate the limit, 404 when the base
product does not exist, otherwise list. -/
def relatedRoute (db : List Product) (pid : String) (q : LimitQuery) :
    RouteResponse (List Product) :=
  match parseLimit q with
  | Except.error errs => RouteResponse.badRequest "Invalid query parameters" errs
  | Except.ok limit =>
      match db.find? (fun p => p.id == pid) with
      | none => RouteResponse.notFound "Product not found"
      | some _ => RouteResponse.ok (getRelatedProducts db pid limit.toNat)

/-- C7: on the three recommendation endpoints, a present limit value that
is NaN or not an integer in [1, 24] yields a 400 response carrying the
validator's (non-empty) issue list; an absent limit parses to the default
6; and a valid limit is passed through, every endpoint answering with at
most that many products. -/
theorem limit_validation_spec (db : List Product) (q : LimitQuery) :
    (∀ v, preprocessLimit q = some v →
      (v = none ∨ ∃ r : Rat, v = some r ∧ (r.den ≠ 1 ∨ r < 1 ∨ 24 < r)) →
      limitIssues v ≠ [] ∧
      bestsellersRoute db q
        = RouteResponse.badRequest "Invalid query parameters" (limitIssues v) ∧
      featuredRoute db q
        = RouteResponse.badRequest "Invalid query parameters" (limitIssues v) ∧
      (∀ pid, relatedRoute db pid q
        = RouteResponse.badRequest "Invalid query parameters" (limitIssues v)) ∧
      routeStatus (bestsellersRoute db q) = 400 ∧
      routeStatus (featuredRoute db q) = 400 ∧
      (∀ pid, routeStatus (relatedRoute db pid q) = 400)) ∧
    (preprocessLimit q = none → parseLimit q = Except.ok 6) ∧
    (∀ r : Rat, preprocessLimit q = some (some r) →
      r.den = 1 → 1 ≤ r → r ≤ 24 →
      parseLimit q = Except.ok r.num ∧
      bestsellersRoute db q
        = RouteResponse.ok (getBestsellingProducts db r.num.toNat) ∧
      (getBestsellingProducts db r.num.toNat).length ≤ r.num.toNat ∧
      featuredRoute db q
        = RouteResponse.ok (getFeaturedProducts db r.num.toNat) ∧
      (getFeaturedProducts db r.num.toNat).length ≤ r.num.toNat ∧
      (∀ pid p, db.find? (fun x => x.id == pid) = some p →
        relatedRoute db pid q
          = RouteResponse.ok (getRelatedProducts db pid r.num.toNat) ∧
        (getRelatedProducts db pid r.num.toNat).length ≤ r.num.toNat)) := by
  refine ⟨?_, ?_, ?_⟩
  · intro v hpre hbad
    have hne : limitIssues v ≠ [] := by
      rcases hbad with rfl | ⟨r, rfl, hd | hlt | hgt⟩
      · simp [limitIssues]
      · simp [limitIssues, hd]
      · simp [limitIssues, not_le.mpr hlt]
      · simp [limitIssues, not_le.mpr hgt]
    have hparse : parseLimit q = Except.error (limitIssues v) := by
      unfold parseLimit
      rw [hpre]
      match v, hne with
      | none, _ => rfl
      | some r, hne => simp only [if_neg hne]
    refine ⟨hne, ?_, ?_, ?_, ?_, ?_, ?_⟩
    · unfold bestsellersRoute
      rw [hparse]
    · unfold featuredRoute
      rw [hparse]
    · intro pid
      unfold relatedRoute
      rw [hparse]
    · unfold bestsellersRoute
      rw [hparse]
      rfl
    · unfold featuredRoute
      rw [hparse]
      rfl
    · intro pid
      unfold relatedRoute
      rw [hparse]
      rfl
  · intro hpre
    unfold parseLimit
    rw [hpre]
  · intro r hpre hden h1 h24
    have hiss : limitIssues (some r) = [] := by
      simp [limitIssues, hden, h1, h24]
    have hparse : parseLimit q = Except.ok r.num := by
      unfold parseLimit
      rw [hpre]
      simp only [if_pos hiss]
    refine ⟨hparse, ?_, ?_, ?_, ?_, ?_⟩
    · unfold bestsellersRoute
      rw [hparse]
    · exact List.length_take_le _ _
    · unfold featuredRoute
      rw [hparse]
    · exact List.length_take_le _ _
    · intro pid p hfind
      constructor
      · unfold relatedRoute
        rw [hparse, hfind]
      · unfold getRelatedProducts
        rw [hfind]
        exact List.length_take_le _ _

/-- Witness for C7: the concrete value `limit=6` parses to the integer 6,
and `limit=0` is rejected by all three routes with a 400. -/
theorem limit_validation_spec_witness :
    parseLimit (LimitQuery.single (some 6)) = Except.ok (6 : Rat).num ∧
    routeStatus (bestsellersRoute [prodA, prodB] (LimitQuery.single (some 0))) = 400 :=
  ⟨((limit_validation_spec [] (LimitQuery.single (some 6))).2.2 6 rfl (by decide)
      (by decide) (by decide)).1,
   ((limit_validation_spec [prodA, prodB] (LimitQuery.single (some 0))).1 (some 0) rfl
      (Or.inr ⟨0, rfl, Or.inr (Or.inl (by decide))⟩)).2.2.2.2.1⟩

end Loja
